import Mathlib

/-!
Verification of the Rekhta toy-language implementation (a TypeScript lexer,
parser and tree-walking interpreter) against its natural-language
specification.  The definitions below are a shallow embedding of the two
source files under scrutiny: the tokenizer (`Tokenizer.ts`) and the
interpreter (`Interpreter.ts`).  JavaScript numbers are IEEE doubles; every
numeric literal of the language is a decimal integer and no claim examined
here depends on fractional results, so numbers are modelled as `Int` plus an
explicit `nan` value (JS `NaN` has `typeof` `"number"`, which matters for the
interpreter's type checks).  JS `undefined` (the result of visiting an absent
AST node) is modelled as a distinct value `undef`.
-/

namespace Rekhta

/-! ## Tokenizer (source: `Tokenizer.ts`, `src/unnamed/part_000`)

The tokenizer holds the source string (with `"\n"` appended by `init`) and a
cursor.  Each row of its `spec` table pairs an anchored regular expression
with either a token type or `null` (discard).  The regular expressions are
embedded as executable prefix matchers on `List Char`; each matcher returns
the matched prefix exactly as the corresponding `^`-anchored JS regex would.
-/

/-- Token kinds, from the `TokenTypes` enum (source lines 3-42).  The
enumeration keys that collide with Lean keywords (`let`, `if`, ...) are
prefixed with `kw`. -/
inductive TokenTypes where
  | kwLet | kwIf | kwElse | kwWhile | kwDo | kwFor | kwTrue | kwFalse
  | kwNull | kwDef | kwReturn | kwClass | kwNew | kwThis | kwSuper | kwExtends
  | SEMI | CURLY_END | CURLY_START | PAREN_START | PAREN_END | COMMA | DOT
  | BRACKET_END | BRACKET_START | STRING | NUMBER | IDENTIFIER
  | EQUALITY_OPERATOR | SIMPLE_ASSIGNMENT | COMPLEX_ASSIGNMENT
  | ADDITITIVE_OPERATOR | MULTIPLICATIVE_OPERATOR | RELATIONAL_OPERATOR
  | LOGICAL_AND | LOGICAL_OR | LOGICAL_NOT | EOF
  deriving DecidableEq, Repr

/-- JS `\s` restricted to the ASCII whitespace characters (the only ones a
source program can contain). -/
def isWsChar (c : Char) : Bool :=
  c == ' ' || c == '\t' || c == '\n' || c == '\r' || c == '\x0b' || c == '\x0c'

/-- JS `\w`: ASCII letters, digits and underscore. -/
def isWordChar (c : Char) : Bool :=
  c.isAlpha || c.isDigit || c == '_'

/-- Matcher for `/^\s+/`. -/
def matchWs (cs : List Char) : Option (List Char) :=
  let t := cs.takeWhile isWsChar
  if t.isEmpty then none else some t

/-- Matcher for `/^\/\/.*/` (`.` does not match `\n` or `\r`). -/
def matchLineComment (cs : List Char) : Option (List Char) :=
  match cs with
  | '/' :: '/' :: rest =>
      some ('/' :: '/' :: rest.takeWhile (fun c => c != '\n' && c != '\r'))
  | _ => none

/-- Body of `/^\/\*[\s\S]*?\*\//` after the opening `/*`: everything up to
and including the first `*/`, or `none` when the comment is unterminated. -/
def blockCommentBody : List Char → Option (List Char)
  | [] => none
  | '*' :: '/' :: _ => some ['*', '/']
  | c :: rest => (blockCommentBody rest).map (fun t => c :: t)

/-- Matcher for `/^\/\*[\s\S]*?\*\//`. -/
def matchBlockComment (cs : List Char) : Option (List Char) :=
  match cs with
  | '/' :: '*' :: rest => (blockCommentBody rest).map (fun t => '/' :: '*' :: t)
  | _ => none

/-- Matcher for a literal character or operator such as `/^;/` or `/^&&/`. -/
def matchLit (lit : List Char) (cs : List Char) : Option (List Char) :=
  if lit.isPrefixOf cs then some lit else none

/-- Matcher for a keyword regex `/^\bKW\b/`: the keyword must be a prefix and
the following character (if any) must not be a word character.  (The leading
`\b` always holds at position 0 of the sliced string because every keyword
starts with a letter.) -/
def matchKeyword (kw : List Char) (cs : List Char) : Option (List Char) :=
  if kw.isPrefixOf cs then
    match cs.drop kw.length with
    | [] => some kw
    | c :: _ => if isWordChar c then none else some kw
  else none

/-- Matcher for `/^\d+/`. -/
def matchDigits (cs : List Char) : Option (List Char) :=
  let t := cs.takeWhile Char.isDigit
  if t.isEmpty then none else some t

/-- Matcher for `/^\w+/`. -/
def matchWord (cs : List Char) : Option (List Char) :=
  let t := cs.takeWhile isWordChar
  if t.isEmpty then none else some t

/-- Matcher for `/^[=!]=/`. -/
def matchEqualityOp (cs : List Char) : Option (List Char) :=
  match cs with
  | c :: '=' :: _ => if c == '=' || c == '!' then some [c, '='] else none
  | _ => none

/-- Matcher for `/^[\*\/\+\-]=/`. -/
def matchComplexAssign (cs : List Char) : Option (List Char) :=
  match cs with
  | c :: '=' :: _ =>
      if c == '*' || c == '/' || c == '+' || c == '-' then some [c, '='] else none
  | _ => none

/-- Matcher for `/^[\+\-]/`. -/
def matchAdditive (cs : List Char) : Option (List Char) :=
  match cs with
  | c :: _ => if c == '+' || c == '-' then some [c] else none
  | _ => none

/-- Matcher for `/^[*\/]/`. -/
def matchMultiplicative (cs : List Char) : Option (List Char) :=
  match cs with
  | c :: _ => if c == '*' || c == '/' then some [c] else none
  | _ => none

/-- Matcher for `/^[><]=?/` (greedy, so `>=` is preferred over `>`). -/
def matchRelational (cs : List Char) : Option (List Char) :=
  match cs with
  | c :: '=' :: _ => if c == '>' || c == '<' then some [c, '='] else none
  | c :: _ => if c == '>' || c == '<' then some [c] else none
  | _ => none

/-- Body of a quoted string literal after the opening quote: characters other
than the quote and `\n`, then the closing quote; `none` when unterminated. -/
def quotedBody (q : Char) : List Char → Option (List Char)
  | [] => none
  | c :: rest =>
      if c == q then some [c]
      else if c == '\n' then none
      else (quotedBody q rest).map (fun t => c :: t)

/-- Matcher for `/^"[^"\n]*"/` and `/^'[^'\n]*'/`. -/
def matchQuoted (q : Char) (cs : List Char) : Option (List Char) :=
  match cs with
  | c :: rest => if c == q then (quotedBody q rest).map (fun t => c :: t) else none
  | _ => none

/-- The ordered rule table (source lines 44-106), exactly mirroring the
`spec` array: each entry pairs a matcher with `some` token type or `none`
for discard rules. -/
def tokSpec : List ((List Char → Option (List Char)) × Option TokenTypes) := [
  (matchWs, none),
  (matchLineComment, none),
  (matchBlockComment, none),
  (matchLit [';'], some .SEMI),
  (matchLit ['}'], some .CURLY_END),
  (matchLit ['{'], some .CURLY_START),
  (matchLit ['('], some .PAREN_START),
  (matchLit [')'], some .PAREN_END),
  (matchLit [','], some .COMMA),
  (matchLit ['.'], some .DOT),
  (matchLit [']'], some .BRACKET_END),
  (matchLit ['['], some .BRACKET_START),
  (matchKeyword "Banao".data, some .kwLet),
  (matchKeyword "Agr".data, some .kwIf),
  (matchKeyword "Warna".data, some .kwElse),
  (matchKeyword "JabTak".data, some .kwWhile),
  (matchKeyword "Karo".data, some .kwDo),
  (matchKeyword "for".data, some .kwFor),
  (matchKeyword "Sahi".data, some .kwTrue),
  (matchKeyword "Ghalat".data, some .kwFalse),
  (matchKeyword "null".data, some .kwNull),
  (matchKeyword "def".data, some .kwDef),
  (matchKeyword "WapisBhejo".data, some .kwReturn),
  (matchKeyword "class".data, some .kwClass),
  (matchKeyword "new".data, some .kwNew),
  (matchKeyword "this".data, some .kwThis),
  (matchKeyword "super".data, some .kwSuper),
  (matchKeyword "extends".data, some .kwExtends),
  (matchDigits, some .NUMBER),
  (matchWord, some .IDENTIFIER),
  (matchEqualityOp, some .EQUALITY_OPERATOR),
  (matchLit ['='], some .SIMPLE_ASSIGNMENT),
  (matchComplexAssign, some .COMPLEX_ASSIGNMENT),
  (matchAdditive, some .ADDITITIVE_OPERATOR),
  (matchMultiplicative, some .MULTIPLICATIVE_OPERATOR),
  (matchRelational, some .RELATIONAL_OPERATOR),
  (matchLit ['&', '&'], some .LOGICAL_AND),
  (matchLit ['|', '|'], some .LOGICAL_OR),
  (matchLit ['!'], some .LOGICAL_NOT),
  (matchQuoted '"', some .STRING),
  (matchQuoted '\'', some .STRING)
]

/-- First rule of the table that matches the given slice, with its matched
prefix — the `for (let [regex, type] of spec)` loop of `getNextToken`. -/
def firstMatch :
    List ((List Char → Option (List Char)) × Option TokenTypes) → List Char →
    Option (List Char × Option TokenTypes)
  | [], _ => none
  | (m, ty) :: rest, cs =>
      match m cs with
      | some matched => some (matched, ty)
      | none => firstMatch rest cs

/-- A produced token: `{type, value, start, end}` (source lines 108-113).
The source field `end` is a Lean keyword, so it is named `endPos` here.
`start` is an `Int` because the source computes it by subtraction on JS
numbers. -/
structure Token where
  type : TokenTypes
  value : String
  start : Int
  endPos : Int
  deriving DecidableEq, Repr

/-- Tokenizer state: the stored string and cursor (source lines 115-121). -/
structure Tokenizer where
  string : List Char
  cursor : Nat
  deriving DecidableEq, Repr

/-- `init(string)`: stores `string + "\n"` and resets the cursor. -/
def Tokenizer.init (s : List Char) : Tokenizer :=
  Tokenizer.mk (s ++ ['\n']) 0

/-- `hasMoreTokens()`. -/
def Tokenizer.hasMoreTokens (st : Tokenizer) : Bool :=
  st.cursor < st.string.length

/-- `isEOF()`. -/
def Tokenizer.isEOF (st : Tokenizer) : Bool :=
  st.cursor == st.string.length

/-- Result of `getNextToken()`: a token plus the advanced tokenizer state,
the `null` end-of-input result, a thrown `ToyLangParserError`, or fuel
exhaustion (the source recursion over discarded tokens). -/
inductive TokResult where
  | tok (t : Token) (st : Tokenizer)
  | eofTok
  | lexError (msg : String)
  | timeout
  deriving DecidableEq, Repr

/-- `getNextToken()` (source lines 131-173).  `_match` advances the cursor by
the matched length before the token record is built, so the source computes
`start` as `cursor - tokenValue.length - 1` and `end` as `cursor` with the
cursor already past the token. -/
def Tokenizer.getNextToken : Nat → Tokenizer → TokResult
  | 0, _ => .timeout
  | fuel + 1, st =>
      if !st.hasMoreTokens || st.isEOF then .eofTok
      else
        let slice := st.string.drop st.cursor
        match firstMatch tokSpec slice with
        | some (matched, none) =>
            -- discard rule (whitespace/comment): consume and recurse
            Tokenizer.getNextToken fuel (Tokenizer.mk st.string (st.cursor + matched.length))
        | some (matched, some ty) =>
            -- cursor after `_match`:
            let cursor' := st.cursor + matched.length
            .tok
              (Token.mk ty (String.mk matched)
                ((cursor' : Int) - (matched.length : Int) - 1)
                (cursor' : Int))
              (Tokenizer.mk st.string cursor')
        | none =>
            match slice with
            | '"' :: _ => .lexError "Unterminated string literal"
            | '\'' :: _ => .lexError "Unterminated string literal"
            | _ => .lexError "Invalid token"

/-! ## Interpreter (source: `Interpreter.ts`, `src/unnamed/part_001`)

The AST is the tagged-variant shape the interpreter's `visit` dispatches on.
`AssignmentExpression.left` is stored as the identifier's name because the
source casts `node.left as tl.Identifier` and only ever reads `.name`.
`FunctionDeclaration` stores the parameter names and the body's statement
list (the block's `body`). -/

inductive Node where
  | Program (body : List Node)
  | ExpressionStatement (expression : Node)
  | VariableStatement (declarations : List (String × Option Node))
  | BlockStatement (body : List Node)
  | IfStatement (test : Node) (consequent : Node) (alternate : Option Node)
  | WhileStatement (test : Node) (body : Node)
  | ForStatement (init : Option Node) (test : Option Node) (update : Option Node)
      (body : Node)
  | FunctionDeclaration (name : String) (params : List String) (body : List Node)
  | ReturnStatement (argument : Option Node)
  | CallExpression (callee : Node) (arguments : List Node)
  | UnaryExpression (op : String) (argument : Node)
  | BinaryExpression (op : String) (left : Node) (right : Node)
  | LogicalExpression (op : String) (left : Node) (right : Node)
  | AssignmentExpression (op : String) (left : String) (right : Node)
  | NumericLiteral (n : Int)
  | StringLiteral (s : String)
  | BooleanLiteral (b : Bool)
  | NullLiteral
  | Identifier (name : String)

/-- Runtime values.  `num`/`nan` together model the JS `number` type
(`typeof NaN` is `"number"`); `undef` models JS `undefined`, which is what
`visit` returns for an absent (`null`) AST node; `fn` is a `ToyLangFunction`
(declaration parameters and body plus the captured environment, a frame
index); `native` is a host-provided stdlib Callable. -/
inductive Value where
  | num (n : Int)
  | nan
  | str (s : String)
  | bool (b : Bool)
  | null
  | undef
  | fn (params : List String) (body : List Node) (closure : Nat)
  | native (name : String)

/-- One scope: a back-reference to the enclosing frame (a `Store` index) and
an association table.  Modelled from the spec: the `Environment` class is not
under `src/`; §4.3 specifies a chained name-to-value mapping. -/
structure Frame where
  parent : Option Nat
  table : List (String × Value)

/-- The frame heap.  A new frame is appended on block entry and function
invocation; parent references always point to earlier indices. -/
abbrev Store := List Frame

/-- Non-normal outcomes: a thrown `RuntimeError` (message as in the source),
the `Return` control signal, or a host-level JavaScript error (`TypeError`,
`Error`) that is not a `RuntimeError`. -/
inductive Exc where
  | rt (msg : String)
  | ret (v : Value)
  | host (msg : String)

/-- Result of one evaluation step: a value with the updated store, a thrown
exception with the store at throw time, or fuel exhaustion (modelling
nontermination). -/
inductive Res where
  | ok (v : Value) (σ : Store)
  | err (e : Exc) (σ : Store)
  | timeout

/-- Sequencing: propagate exceptions and fuel exhaustion. -/
def Res.bind (r : Res) (k : Value → Store → Res) : Res :=
  match r with
  | .ok v σ => k v σ
  | .err e σ => .err e σ
  | .timeout => .timeout

/-- Lift the result of a pure helper into `Res`. -/
def Res.ofExcept (r : Except Exc Value) (σ : Store) : Res :=
  match r with
  | .ok v => .ok v σ
  | .error e => .err e σ

/-! ### Association tables and the frame chain -/

/-- Lookup in one frame's table. -/
def tlookup : List (String × Value) → String → Option Value
  | [], _ => none
  | (k, v) :: rest, name => if k = name then some v else tlookup rest name

/-- Write into one frame's table: replace the first binding of the name, or
append a new one. -/
def tset : List (String × Value) → String → Value → List (String × Value)
  | [], name, v => [(name, v)]
  | (k, w) :: rest, name, v =>
      if k = name then (k, v) :: rest else (k, w) :: tset rest name v

/-- Frame at an index. -/
def frameAt : Store → Nat → Option Frame
  | [], _ => none
  | fr :: _, 0 => some fr
  | _ :: rest, n + 1 => frameAt rest n

/-- Replace the frame at an index (no-op when out of range). -/
def setFrame : Store → Nat → Frame → Store
  | [], _, _ => []
  | _ :: rest, 0, fr => fr :: rest
  | f0 :: rest, n + 1, fr => f0 :: setFrame rest n fr

/-- Walk the back-reference chain looking the name up.  Modelled from the
spec (§4.3 `get`): innermost scope outward.  The `g` bound guards the walk;
`Store.length + 1` steps always suffice because parent references produced by
the evaluator point to strictly earlier frames. -/
def lookupChain : Nat → Store → Nat → String → Option Value
  | 0, _, _, _ => none
  | g + 1, frames, ref, name =>
      match frameAt frames ref with
      | none => none
      | some fr =>
          match tlookup fr.table name with
          | some v => some v
          | none =>
              match fr.parent with
              | none => none
              | some p => lookupChain g frames p name

/-- Walk the chain and mutate the first frame that binds the name.  Modelled
from the spec (§4.3 `assign`): fails (`none`) when the name is nowhere
declared. -/
def assignChain : Nat → Store → Nat → String → Value → Option Store
  | 0, _, _, _, _ => none
  | g + 1, frames, ref, name, v =>
      match frameAt frames ref with
      | none => none
      | some fr =>
          if (tlookup fr.table name).isSome then
            some (setFrame frames ref (Frame.mk fr.parent (tset fr.table name v)))
          else
            match fr.parent with
            | none => none
            | some p => assignChain g frames p name v

/-- `Environment.get` viewed from a frame index. -/
def envGet (σ : Store) (ref : Nat) (name : String) : Option Value :=
  lookupChain (σ.length + 1) σ ref name

/-- `Environment.assign` viewed from a frame index. -/
def envAssign (σ : Store) (ref : Nat) (name : String) (v : Value) : Option Store :=
  assignChain (σ.length + 1) σ ref name v

/-- `Environment.add` (define): insert into the innermost scope, last write
visible.  Modelled from the spec (§4.3 `define`). -/
def envAdd (σ : Store) (ref : Nat) (name : String) (v : Value) : Store :=
  match frameAt σ ref with
  | none => σ
  | some fr => setFrame σ ref (Frame.mk fr.parent (tset fr.table name v))

/-! ### JS value helpers -/

/-- JS truthiness, as used by `if (test)`, `while (...)`, the `for` test and
`&&`/`||`: `false`, `null`, `undefined`, `NaN`, `0` and `""` are falsy. -/
def jsTruthy : Value → Bool
  | .bool b => b
  | .null => false
  | .undef => false
  | .nan => false
  | .num n => !(n == 0)
  | .str s => !(s == "")
  | .fn _ _ _ => true
  | .native _ => true

/-- JS `typeof`. -/
def jsTypeof : Value → String
  | .num _ => "number"
  | .nan => "number"
  | .str _ => "string"
  | .bool _ => "boolean"
  | .null => "object"
  | .undef => "undefined"
  | .fn _ _ _ => "function"
  | .native _ => "function"

/-- `typeof v === "number"`. -/
def isNumberV (v : Value) : Bool :=
  match v with
  | .num _ => true
  | .nan => true
  | _ => false

/-- `typeof v === "string"`. -/
def isStringV (v : Value) : Bool :=
  match v with
  | .str _ => true
  | _ => false

/-- JS `Number(string)` on the decimal-integer fragment: leading/trailing
whitespace is trimmed, the empty string is `0`, an optional sign followed by
digits is its value, anything else is `NaN` (`none`).  (Hex/float/exponent
forms also exist in JS; no program examined here contains one, and they are
mapped to `NaN` by this model.) -/
def digitsVal : List Char → Option Nat
  | [] => none
  | cs =>
      if cs.all Char.isDigit then
        some (cs.foldl (fun acc c => acc * 10 + (c.toNat - '0'.toNat)) 0)
      else none

/-- See `digitsVal`. -/
def strToNumber (s : String) : Option Int :=
  let t := ((s.data.dropWhile isWsChar).reverse.dropWhile isWsChar).reverse
  match t with
  | [] => some 0
  | '+' :: ds => (digitsVal ds).map (fun n => (n : Int))
  | '-' :: ds => (digitsVal ds).map (fun n => -(n : Int))
  | ds => (digitsVal ds).map (fun n => (n : Int))

/-- JS `ToNumber`; `none` is `NaN`. -/
def toNumber : Value → Option Int
  | .num n => some n
  | .nan => none
  | .bool b => some (if b then 1 else 0)
  | .null => some 0
  | .undef => none
  | .str s => strToNumber s
  | .fn _ _ _ => none
  | .native _ => none

/-- JS `ToString`.  A function's string form is its source text; it is
modelled opaquely as `"function"` (no claim observes it). -/
def jsToString : Value → String
  | .num n => toString n
  | .nan => "NaN"
  | .str s => s
  | .bool b => if b then "true" else "false"
  | .null => "null"
  | .undef => "undefined"
  | .fn _ _ _ => "function"
  | .native _ => "function"

/-- JS loose equality `==` on the modelled values.  Same-type operands
compare by value; `null == undefined`; a number and a string compare after
`ToNumber` of the string; a boolean is converted with `ToNumber` first; `NaN`
equals nothing.  Two `fn`/`native` values compare by object reference in JS;
distinct-by-construction references are modelled as never equal. -/
def jsLooseEq : Value → Value → Bool
  | .nan, _ => false
  | _, .nan => false
  | .num a, .num b => a == b
  | .str a, .str b => a == b
  | .bool a, .bool b => a == b
  | .null, .null => true
  | .null, .undef => true
  | .undef, .null => true
  | .undef, .undef => true
  | .num a, .str s => strToNumber s == some a
  | .str s, .num a => strToNumber s == some a
  | .bool b, .num a => (if b then (1 : Int) else 0) == a
  | .num a, .bool b => (if b then (1 : Int) else 0) == a
  | .bool b, .str s => strToNumber s == some (if b then (1 : Int) else 0)
  | .str s, .bool b => strToNumber s == some (if b then (1 : Int) else 0)
  | _, _ => false

/-- JS `+` with no operand check, as used by the compound `+=` (source line
155): string concatenation when either side is a string, numeric addition
otherwise. -/
def jsAdd (l r : Value) : Value :=
  if isStringV l || isStringV r then .str (jsToString l ++ jsToString r)
  else
    match toNumber l, toNumber r with
    | some a, some b => .num (a + b)
    | _, _ => .nan

/-- JS `-` on arbitrary values (used by `-=`). -/
def jsSub (l r : Value) : Value :=
  match toNumber l, toNumber r with
  | some a, some b => .num (a - b)
  | _, _ => .nan

/-- JS `*` on arbitrary values (used by `*=`). -/
def jsMul (l r : Value) : Value :=
  match toNumber l, toNumber r with
  | some a, some b => .num (a * b)
  | _, _ => .nan

/-- JS `/` on arbitrary values (used by `/=` and `/`).  A zero divisor gives
JS `Infinity`/`NaN`; both are modelled as `nan`, and the quotient of two
integers is modelled as their integer quotient (no claim observes quotient
values). -/
def jsDiv (l r : Value) : Value :=
  match toNumber l, toNumber r with
  | some a, some b => if b == 0 then .nan else .num (a / b)
  | _, _ => .nan

/-- Numeric addition for the checked `+` branch (both operands already have
`typeof` `"number"`; `NaN` propagates). -/
def numAdd (l r : Value) : Value :=
  match l, r with
  | .num a, .num b => .num (a + b)
  | _, _ => .nan

/-- The `TypeMismatch` message of the `+` operator (source line 360). -/
def plusMismatchMsg (l r : Value) : String :=
  "Runtime: Mismatched type, cannot \"" ++ jsTypeof l ++ "\" + \"" ++ jsTypeof r ++ "\""

/-- `checkNumberOperands` (source lines 9-17): both operands must have
`typeof` `"number"`, else `RuntimeError "Operands must be numbers."`. -/
def checkNumberOperands (l r : Value) : Except Exc Unit :=
  if isNumberV l && isNumberV r then .ok () else .error (.rt "Operands must be numbers.")

/-- Comparison results for the relational operators: `NaN` compares false. -/
def numRel (cmp : Int → Int → Bool) (l r : Value) : Value :=
  match l, r with
  | .num a, .num b => .bool (cmp a b)
  | _, _ => .bool false

/-- Arithmetic on checked numeric operands, `NaN`-propagating. -/
def numArith (f : Int → Int → Value) (l r : Value) : Value :=
  match l, r with
  | .num a, .num b => f a b
  | _, _ => .nan

/-- The `switch (op)` of `visitBinaryExpression` (source lines 345-393) on
already-evaluated operands.  An unknown operator throws a host `Error`, not a
`RuntimeError` (source line 393). -/
def applyBinary (op : String) (l r : Value) : Except Exc Value :=
  match op with
  | "==" => .ok (.bool (jsLooseEq l r))
  | "!=" => .ok (.bool (!jsLooseEq l r))
  | "+" =>
      if isNumberV l && isNumberV r then .ok (numAdd l r)
      else if isStringV l && isStringV r then
        match l, r with
        | .str a, .str b => .ok (.str (a ++ b))
        | _, _ => .ok .nan
      else .error (.rt (plusMismatchMsg l r))
  | "-" =>
      match checkNumberOperands l r with
      | .error e => .error e
      | .ok _ => .ok (numArith (fun a b => .num (a - b)) l r)
  | "/" =>
      match checkNumberOperands l r with
      | .error e => .error e
      | .ok _ => .ok (numArith (fun a b => if b == 0 then .nan else .num (a / b)) l r)
  | "*" =>
      match checkNumberOperands l r with
      | .error e => .error e
      | .ok _ => .ok (numArith (fun a b => .num (a * b)) l r)
  | ">" =>
      match checkNumberOperands l r with
      | .error e => .error e
      | .ok _ => .ok (numRel (fun a b => b < a) l r)
  | "<" =>
      match checkNumberOperands l r with
      | .error e => .error e
      | .ok _ => .ok (numRel (fun a b => a < b) l r)
  | ">=" =>
      match checkNumberOperands l r with
      | .error e => .error e
      | .ok _ => .ok (numRel (fun a b => b ≤ a) l r)
  | "<=" =>
      match checkNumberOperands l r with
      | .error e => .error e
      | .ok _ => .ok (numRel (fun a b => a ≤ b) l r)
  | _ => .error (.host "Runtime: Unknown Binary operation")

/-- `callee.arity()`: `some (some n)` for a `ToyLangFunction` (its parameter
count), `some none` (Infinity) for a native, and `none` when the callee has
no `arity` method at all — in that case JS raises a `TypeError` at the call
site.  Modelled from the spec: `CallableFunction.ts`/`StdLib.ts` are not
under `src/`; §4.4 and §6 fix a ToyLang function's arity as its declared
parameter count and natives as unbounded (variadic). -/
def calleeArity : Value → Option (Option Nat)
  | .fn params _ _ => some (some params.length)
  | .native _ => some none
  | _ => none

/-- The `ArityMismatch` message (source lines 225-231). -/
def arityErrMsg (arity got : Nat) : String :=
  "Expected " ++ toString arity ++ " arguments but got " ++ toString got ++ "."

/-- Message of the `RuntimeError` thrown by `Environment.get` on an unbound
name.  Modelled from the spec (§4.3, §7: `RuntimeError: UndefinedVariable`).
-/
def undefinedVarMsg (name : String) : String :=
  "UndefinedVariable: " ++ name

/-- Positional parameter binding for a function invocation.  Modelled from
the spec (§4.4). -/
def bindParams : List String → List Value → List (String × Value)
  | [], _ => []
  | _ :: _, [] => []
  | p :: ps, v :: vs => (p, v) :: bindParams ps vs

/-- Result of a native stdlib call.  Modelled from the spec (§6): a native
returns a runtime value; `print` returns nothing of interest, modelled as
`null`. -/
def nativeResult (_name : String) (_args : List Value) : Value :=
  .null

/-- Work items of the evaluator.  `node n` is the source's `visit(n)`; the
other constructors are the evaluation stages that the source expresses with
loops and statement sequences inside one method:
`seq` is `executeBlock`'s statement loop (and `visitProgram`'s map),
`evalArgs` is `visitCallExpression`'s argument loop,
`invoke` is its arity check (source lines 224-233),
`callIt` is `callee.call(this, args)`,
`whileLoop`/`forLoop`/`forever` are the loop heads of
`visitWhileStatement`/`visitForStatement`. -/
inductive Work where
  | node (n : Node)
  | seq (ns : List Node)
  | evalArgs (callee : Value) (pending : List Node) (acc : List Value)
  | invoke (callee : Value) (args : List Value)
  | callIt (callee : Value) (args : List Value)
  | whileLoop (test : Node) (body : Node)
  | forLoop (test : Option Node) (update : Option Node) (body : Node)
  | forever (body : Node)

/-- The interpreter's `visit` (source lines 67-119 and the `visitXxx`
methods), as a fuel-indexed evaluator.  `env` is `this.environment` (a frame
index); `executeBlock`'s save/restore of `this.environment` in `try/finally`
is modelled by passing `env` as a parameter.  Fuel exhaustion (`timeout`)
models nontermination. -/
def visit : Nat → Work → Nat → Store → Res
  | 0, _, _, _ => .timeout
  | f + 1, w, env, σ =>
      match w with
      | .node n =>
          match n with
          | .Program body =>
              -- visitProgram: node.body.map(visit); return null
              Res.bind (visit f (.seq body) env σ) (fun _ σ1 => .ok .null σ1)
          | .ExpressionStatement e => visit f (.node e) env σ
          | .VariableStatement decls =>
              -- visitVariableStatement (source lines 243-254): the loop body
              -- ends in `return null`, so only the FIRST declaration is ever
              -- processed; the remaining declarators are skipped.
              match decls with
              | [] => .ok .null σ
              | (name, initOpt) :: _rest =>
                  match initOpt with
                  | none => .ok .null (envAdd σ env name .null)
                  | some i =>
                      Res.bind (visit f (.node i) env σ) (fun v σ1 =>
                        .ok .null (envAdd σ1 env name v))
          | .BlockStatement body =>
              -- visitBlockStatement: executeBlock(body, new Environment(env))
              Res.bind (visit f (.seq body) σ.length (σ ++ [Frame.mk (some env) []]))
                (fun _ σ1 => .ok .null σ1)
          | .IfStatement test cons alt =>
              Res.bind (visit f (.node test) env σ) (fun tv σ1 =>
                if jsTruthy tv then
                  Res.bind (visit f (.node cons) env σ1) (fun _ σ2 => .ok .null σ2)
                else
                  match alt with
                  | some a =>
                      Res.bind (visit f (.node a) env σ1) (fun _ σ2 => .ok .null σ2)
                  | none => .ok .null σ1)
          | .WhileStatement test body => visit f (.whileLoop test body) env σ
          | .ForStatement initOpt test update body =>
              -- visitForStatement (source lines 317-332): the dedicated
              -- `for(;;)` branch runs only when init, test AND update are all
              -- absent; otherwise the generic loop visits the (possibly
              -- null) test, and `visit(null)` returns `undefined`.
              match initOpt, test, update with
              | none, none, none => visit f (.forever body) env σ
              | _, _, _ =>
                  Res.bind
                    (match initOpt with
                     | none => .ok .undef σ
                     | some i => visit f (.node i) env σ)
                    (fun _ σ1 => visit f (.forLoop test update body) env σ1)
          | .FunctionDeclaration name params body =>
              .ok .null (envAdd σ env name (.fn params body env))
          | .ReturnStatement arg =>
              match arg with
              | none => .err (.ret .null) σ
              | some a =>
                  Res.bind (visit f (.node a) env σ) (fun v σ1 => .err (.ret v) σ1)
          | .CallExpression callee args =>
              Res.bind (visit f (.node callee) env σ) (fun cv σ1 =>
                -- The guard at source line 215 is
                --   (!(callee as any).prototype as unknown) instanceof CallableFunction
                -- `!callee.prototype` is a boolean primitive and
                -- `boolean instanceof C` is always false, so the guard never
                -- throws, for callables and non-callables alike.
                visit f (.evalArgs cv args []) env σ1)
          | .UnaryExpression op a =>
              Res.bind (visit f (.node a) env σ) (fun rv σ1 =>
                match op with
                | "-" =>
                    -- checkNumberOperand (source lines 19-23)
                    if isNumberV rv then
                      .ok (match rv with | .num x => .num (-x) | _ => .nan) σ1
                    else .err (.rt "Operand must be number.") σ1
                | "+" => .ok rv σ1
                | "!" => .ok (.bool (!jsTruthy rv)) σ1
                | _ => .ok .null σ1)
          | .BinaryExpression op left right =>
              Res.bind (visit f (.node left) env σ) (fun lv σ1 =>
                Res.bind (visit f (.node right) env σ1) (fun rv σ2 =>
                  Res.ofExcept (applyBinary op lv rv) σ2))
          | .LogicalExpression op left right =>
              -- visitLogicalExpression (source lines 401-415): BOTH operands
              -- are evaluated before the operator is examined — there is no
              -- short-circuit.
              Res.bind (visit f (.node left) env σ) (fun lv σ1 =>
                Res.bind (visit f (.node right) env σ1) (fun rv σ2 =>
                  match op with
                  | "&&" => .ok (if jsTruthy lv then rv else lv) σ2
                  | "||" => .ok (if jsTruthy lv then lv else rv) σ2
                  | _ => .err (.host "Runtime: Unknown Logical operation") σ2))
          | .AssignmentExpression op left right =>
              -- visitAssignmentExpression (source lines 144-182): the right
              -- side is evaluated, then the CURRENT value of the target is
              -- read; `=` stores the new value but returns `lhs`, the value
              -- read BEFORE the assignment; the compound forms update `lhs`
              -- and return the updated value.
              Res.bind (visit f (.node right) env σ) (fun value σ1 =>
                match envGet σ1 env left with
                | none => .err (.rt (undefinedVarMsg left)) σ1
                | some lhs =>
                    match op with
                    | "=" =>
                        match envAssign σ1 env left value with
                        | some σ2 => .ok lhs σ2
                        | none => .err (.rt (undefinedVarMsg left)) σ1
                    | "+=" =>
                        let l2 := jsAdd lhs value
                        match envAssign σ1 env left l2 with
                        | some σ2 => .ok l2 σ2
                        | none => .err (.rt (undefinedVarMsg left)) σ1
                    | "-=" =>
                        if isNumberV value then
                          let l2 := jsSub lhs value
                          match envAssign σ1 env left l2 with
                          | some σ2 => .ok l2 σ2
                          | none => .err (.rt (undefinedVarMsg left)) σ1
                        else .err (.rt "Operand must be a number") σ1
                    | "/=" =>
                        if isNumberV value then
                          let l2 := jsDiv lhs value
                          match envAssign σ1 env left l2 with
                          | some σ2 => .ok l2 σ2
                          | none => .err (.rt (undefinedVarMsg left)) σ1
                        else .err (.rt "Operand must be a number") σ1
                    | "*=" =>
                        if isNumberV value then
                          let l2 := jsMul lhs value
                          match envAssign σ1 env left l2 with
                          | some σ2 => .ok l2 σ2
                          | none => .err (.rt (undefinedVarMsg left)) σ1
                        else .err (.rt "Operand must be a number") σ1
                    | _ => .ok lhs σ1)
          | .NumericLiteral n => .ok (.num n) σ
          | .StringLiteral s => .ok (.str s) σ
          | .BooleanLiteral _ =>
              -- `visit`'s switch (source lines 81-118) has no
              -- "BooleanLiteral" case, so the node falls through to the
              -- default branch and evaluates to null (visitLiterals is never
              -- reached for it).
              .ok .null σ
          | .NullLiteral =>
              -- likewise no "NullLiteral" case: default branch, null.
              .ok .null σ
          | .Identifier name =>
              match envGet σ env name with
              | some v => .ok v σ
              | none => .err (.rt (undefinedVarMsg name)) σ
      | .seq ns =>
          match ns with
          | [] => .ok .null σ
          | n :: rest =>
              Res.bind (visit f (.node n) env σ) (fun _ σ1 =>
                visit f (.seq rest) env σ1)
      | .evalArgs cv pending acc =>
          match pending with
          | [] => visit f (.invoke cv acc) env σ
          | a :: rest =>
              Res.bind (visit f (.node a) env σ) (fun v σ1 =>
                visit f (.evalArgs cv rest (acc ++ [v])) env σ1)
      | .invoke cv args =>
          match calleeArity cv with
          | none =>
              -- non-callable: `callee.arity()` raises a host TypeError
              .err (.host "callee.arity is not a function") σ
          | some (some n) =>
              if args.length ≠ n then .err (.rt (arityErrMsg n args.length)) σ
              else visit f (.callIt cv args) env σ
          | some none =>
              -- arity Infinity (variadic native): the check is bypassed
              visit f (.callIt cv args) env σ
      | .callIt cv args =>
          match cv with
          | .fn params body closure =>
              -- Modelled from the spec (§4.4): CallableFunction.ts is not
              -- under src/.  A UserFunction call creates a new Environment
              -- chained to the captured one, binds parameters positionally,
              -- runs the body, catches the Return signal at this boundary
              -- and yields null when the body finishes without a return.
              match visit f (.seq body) σ.length
                  (σ ++ [Frame.mk (some closure) (bindParams params args)]) with
              | .ok _ σ1 => .ok .null σ1
              | .err (.ret v) σ1 => .ok v σ1
              | .err e σ1 => .err e σ1
              | .timeout => .timeout
          | .native nm => .ok (nativeResult nm args) σ
          | _ => .err (.host "callee.call is not a function") σ
      | .whileLoop test body =>
          Res.bind (visit f (.node test) env σ) (fun tv σ1 =>
            if jsTruthy tv then
              Res.bind (visit f (.node body) env σ1) (fun _ σ2 =>
                visit f (.whileLoop test body) env σ2)
            else .ok .null σ1)
      | .forLoop test update body =>
          Res.bind
            (match test with
             | none => .ok .undef σ
             | some t => visit f (.node t) env σ)
            (fun tv σ1 =>
              if jsTruthy tv then
                Res.bind (visit f (.node body) env σ1) (fun _ σ2 =>
                  Res.bind
                    (match update with
                     | none => .ok .undef σ2
                     | some u => visit f (.node u) env σ2)
                    (fun _ σ3 => visit f (.forLoop test update body) env σ3))
              else .ok .null σ1)
      | .forever body =>
          Res.bind (visit f (.node body) env σ) (fun _ σ1 =>
            visit f (.forever body) env σ1)

/-- The global store seeded with the stdlib natives.  Modelled from the spec
(§6): the concrete stdlib is not under `src/`; one representative variadic
native (`print`) is seeded. -/
def initStore : Store :=
  [Frame.mk none [("print", Value.native "print")]]

/-- A bare global frame, used by the concrete programs below that need no
native. -/
def emptyStore : Store :=
  [Frame.mk none []]

/-- The C5 failing program: `Banao x = 0; for (Banao i = 0; ; i += 1) { x = 1; }`
— a `for` whose test clause is absent but whose init and update clauses are
present. -/
def forAbsentTestProg : Node :=
  .Program [
    .VariableStatement [("x", some (.NumericLiteral 0))],
    .ForStatement (some (.VariableStatement [("i", some (.NumericLiteral 0))]))
      none
      (some (.AssignmentExpression "+=" "i" (.NumericLiteral 1)))
      (.BlockStatement [.ExpressionStatement (.AssignmentExpression "=" "x" (.NumericLiteral 1))])]

/-! ### Environment lemmas -/

theorem tlookup_tset_self (t : List (String × Value)) (k : String) (v : Value) :
    tlookup (tset t k v) k = some v := by
  induction t with
  | nil => simp [tset, tlookup]
  | cons hd tl ih =>
      obtain ⟨k', w⟩ := hd
      by_cases h : k' = k
      · simp [tset, h, tlookup]
      · simp [tset, h, tlookup, ih]

theorem setFrame_length (σ : Store) (i : Nat) (fr : Frame) :
    (setFrame σ i fr).length = σ.length := by
  induction σ generalizing i with
  | nil => simp [setFrame]
  | cons hd tl ih =>
      cases i with
      | zero => simp [setFrame]
      | succ n => simp [setFrame, ih]

theorem frameAt_setFrame_self (σ : Store) (i : Nat) (fr0 fr : Frame)
    (h : frameAt σ i = some fr0) : frameAt (setFrame σ i fr) i = some fr := by
  induction σ generalizing i with
  | nil => simp [frameAt] at h
  | cons hd tl ih =>
      cases i with
      | zero => simp [setFrame, frameAt]
      | succ n =>
          simp only [frameAt] at h
          simp only [setFrame, frameAt]
          exact ih n h

theorem frameAt_setFrame_ne (σ : Store) (i j : Nat) (fr : Frame) (h : j ≠ i) :
    frameAt (setFrame σ i fr) j = frameAt σ j := by
  induction σ generalizing i j with
  | nil => simp [setFrame]
  | cons hd tl ih =>
      cases i with
      | zero =>
          cases j with
          | zero => exact absurd rfl h
          | succ m => simp [setFrame, frameAt]
      | succ n =>
          cases j with
          | zero => simp [setFrame, frameAt]
          | succ m =>
              simp only [setFrame, frameAt]
              exact ih n m (fun hh => h (by omega))

/-- `assignChain` only rewrites the one frame in which it finds the name;
every frame whose table does not bind the name is left unchanged. -/
theorem assignChain_preserves (g : Nat) (σ : Store) (name : String) (v : Value) :
    ∀ (r : Nat) (σ' : Store), assignChain g σ r name v = some σ' →
      ∀ (j : Nat) (fr₁ : Frame), frameAt σ j = some fr₁ →
        tlookup fr₁.table name = none → frameAt σ' j = some fr₁ := by
  induction g with
  | zero => intro r σ' h; simp [assignChain] at h
  | succ g ih =>
      intro r σ' h j fr₁ hj hnone
      cases hfr : frameAt σ r with
      | none => simp [assignChain, hfr] at h
      | some fr =>
          simp only [assignChain, hfr] at h
          by_cases hc : (tlookup fr.table name).isSome = true
          · rw [if_pos hc] at h
            injection h with h'
            subst h'
            by_cases hjr : j = r
            · subst hjr
              rw [hj] at hfr
              injection hfr with e
              subst e
              rw [hnone] at hc
              simp at hc
            · rw [frameAt_setFrame_ne σ r j _ hjr]
              exact hj
          · rw [if_neg hc] at h
            cases hp : fr.parent with
            | none => simp only [hp] at h; exact absurd h (by simp)
            | some p =>
                simp only [hp] at h
                exact ih p σ' h j fr₁ hj hnone

/-- After a successful `assignChain`, looking the name up along the same
chain yields the newly stored value, and the store's length is unchanged. -/
theorem assignChain_lookupChain (g : Nat) (σ : Store) (name : String) (v : Value) :
    ∀ (r : Nat) (σ' : Store), assignChain g σ r name v = some σ' →
      lookupChain g σ' r name = some v ∧ σ'.length = σ.length := by
  induction g with
  | zero => intro r σ' h; simp [assignChain] at h
  | succ g ih =>
      intro r σ' h
      cases hfr : frameAt σ r with
      | none => simp [assignChain, hfr] at h
      | some fr =>
          simp only [assignChain, hfr] at h
          by_cases hc : (tlookup fr.table name).isSome = true
          · rw [if_pos hc] at h
            injection h with h'
            subst h'
            constructor
            · simp only [lookupChain]
              rw [frameAt_setFrame_self σ r fr _ hfr]
              simp [tlookup_tset_self]
            · exact setFrame_length σ r _
          · rw [if_neg hc] at h
            cases hp : fr.parent with
            | none => simp only [hp] at h; exact absurd h (by simp)
            | some p =>
                simp only [hp] at h
                have hnone : tlookup fr.table name = none := by
                  cases htl : tlookup fr.table name with
                  | none => rfl
                  | some w => rw [htl] at hc; simp at hc
                have hfr' : frameAt σ' r = some fr :=
                  assignChain_preserves g σ name v p σ' h r fr hfr hnone
                constructor
                · simp only [lookupChain, hfr', hnone, hp]
                  exact (ih p σ' h).1
                · exact (ih p σ' h).2

/-- When a name resolves along the chain, assignment along the same chain
succeeds. -/
theorem lookupChain_assignChain (g : Nat) (σ : Store) (name : String) (v₀ v : Value) :
    ∀ (r : Nat), lookupChain g σ r name = some v₀ →
      ∃ σ', assignChain g σ r name v = some σ' := by
  induction g with
  | zero => intro r h; simp [lookupChain] at h
  | succ g ih =>
      intro r h
      cases hfr : frameAt σ r with
      | none => simp [lookupChain, hfr] at h
      | some fr =>
          simp only [lookupChain, hfr] at h
          simp only [assignChain, hfr]
          by_cases hc : (tlookup fr.table name).isSome = true
          · rw [if_pos hc]
            exact ⟨_, rfl⟩
          · rw [if_neg hc]
            have htl : tlookup fr.table name = none := by
              cases htl2 : tlookup fr.table name with
              | none => rfl
              | some w => rw [htl2] at hc; simp at hc
            simp only [htl] at h
            cases hp : fr.parent with
            | none => simp only [hp] at h; exact absurd h (by simp)
            | some p =>
                simp only [hp] at h
                simp only [hp]
                exact ih p h

/-- `envGet`/`envAssign` packaging of the chain lemmas. -/
theorem envGet_envAssign (σ : Store) (r : Nat) (name : String) (v₀ v : Value)
    (h : envGet σ r name = some v₀) :
    ∃ σ', envAssign σ r name v = some σ'
      ∧ envGet σ' r name = some v ∧ σ'.length = σ.length := by
  obtain ⟨σ', hσ'⟩ := lookupChain_assignChain (σ.length + 1) σ name v₀ v r h
  obtain ⟨hl, hlen⟩ := assignChain_lookupChain (σ.length + 1) σ name v r σ' hσ'
  refine ⟨σ', hσ', ?_, hlen⟩
  unfold envGet
  rw [hlen]
  exact hl

/-! ## Claim theorems -/

/-- C1: the claim says `&&`/`||` short-circuit, so that
`false && rightSideNeverEvaluated()` raises no error.  The code
(`visitLogicalExpression`, source lines 401-415) evaluates BOTH operands
before looking at the operator: with a falsy left operand and a right
operand that is an unbound identifier, evaluation raises the
`UndefinedVariable` runtime error that short-circuiting would have avoided.
-/
theorem logicalExpression_not_short_circuit :
    visit 10 (.node (.LogicalExpression "&&" (.BooleanLiteral false) (.Identifier "missing")))
        0 emptyStore
      = .err (.rt (undefinedVarMsg "missing")) emptyStore := rfl

/-- C2 counterexample: the claim says a numeric-zero test is truthy, so the
consequent runs.  In the code `visitIfStatement` uses JS truthiness
(`if (test)`), under which `0` is falsy: with `x` initially `0`, the
statement `Agr (0) { x = 1; } Warna { x = 2; }` leaves `x = 2` — the
alternate ran, and `2` is not the consequent's `1`. -/
theorem ifStatement_zero_test_cex :
    visit 10 (.node (.IfStatement (.NumericLiteral 0)
          (.ExpressionStatement (.AssignmentExpression "=" "x" (.NumericLiteral 1)))
          (some (.ExpressionStatement (.AssignmentExpression "=" "x" (.NumericLiteral 2))))))
        0 [Frame.mk none [("x", .num 0)]]
      = .ok .null [Frame.mk none [("x", .num 2)]]
    ∧ envGet [Frame.mk none [("x", .num 2)]] 0 "x" = some (.num 2)
    ∧ Value.num 2 ≠ Value.num 1 := by
  refine ⟨rfl, rfl, ?_⟩
  intro h
  injection h with h'
  exact absurd h' (by decide)

/-- C2 (amended): an IfStatement's test is decided by JavaScript truthiness:
the test value is falsy iff it is `false`, `null`, `undefined`, `NaN`,
numeric zero, or the empty string; the consequent runs exactly when the test
value is truthy, the alternate (when present) otherwise. -/
theorem ifStatement_truthiness (f : Nat) (test cons a : Node) (env : Nat)
    (σ σ' : Store) (v : Value)
    (h : visit f (.node test) env σ = .ok v σ') :
    (visit (f + 1) (.node (.IfStatement test cons (some a))) env σ =
      if jsTruthy v then
        Res.bind (visit f (.node cons) env σ') (fun _ σ2 => .ok .null σ2)
      else
        Res.bind (visit f (.node a) env σ') (fun _ σ2 => .ok .null σ2))
    ∧ (jsTruthy v = false ↔
        (v = .bool false ∨ v = .null ∨ v = .undef ∨ v = .nan ∨ v = .num 0 ∨ v = .str "")) := by
  constructor
  · simp only [visit, h, Res.bind]
  · cases v <;> simp [jsTruthy]

/-- C2 witness: `ifStatement_truthiness` applied at the concrete test `5`. -/
theorem ifStatement_truthiness_witness :
    (visit 2 (.node (.IfStatement (.NumericLiteral 5)
          (.ExpressionStatement (.NumericLiteral 1))
          (some (.ExpressionStatement (.NumericLiteral 2))))) 0 emptyStore =
      if jsTruthy (.num 5) then
        Res.bind (visit 1 (.node (.ExpressionStatement (.NumericLiteral 1))) 0 emptyStore)
          (fun _ σ2 => .ok .null σ2)
      else
        Res.bind (visit 1 (.node (.ExpressionStatement (.NumericLiteral 2))) 0 emptyStore)
          (fun _ σ2 => .ok .null σ2))
    ∧ (jsTruthy (.num 5) = false ↔
        ((.num 5 : Value) = .bool false ∨ (.num 5 : Value) = .null ∨ (.num 5 : Value) = .undef
          ∨ (.num 5 : Value) = .nan ∨ (.num 5 : Value) = .num 0 ∨ (.num 5 : Value) = .str "")) :=
  ifStatement_truthiness 1 (.NumericLiteral 5) (.ExpressionStatement (.NumericLiteral 1))
    (.ExpressionStatement (.NumericLiteral 2)) 0 emptyStore emptyStore (.num 5) rfl

/-- C3 counterexample: the claim says two operands of different runtime
types are never equal under `==` — in particular `1` and `"1"`.  The code
returns JS `left == right`, which coerces: `1 == "1"` evaluates to `true`. -/
theorem equality_coercion_cex :
    visit 3 (.node (.BinaryExpression "==" (.NumericLiteral 1) (.StringLiteral "1"))) 0 emptyStore
      = .ok (.bool true) emptyStore := rfl

/-- C3 (amended): `==`/`!=` implement JavaScript loose equality and its
negation: same-type operands compare by value, but across types `ToNumber`
coercion applies, so for example `1 == "1"` is true. -/
theorem binaryExpression_loose_equality (f : Nat) (left right : Node) (env : Nat)
    (σ σ₁ σ₂ : Store) (lv rv : Value)
    (h1 : visit f (.node left) env σ = .ok lv σ₁)
    (h2 : visit f (.node right) env σ₁ = .ok rv σ₂) :
    visit (f + 1) (.node (.BinaryExpression "==" left right)) env σ
        = .ok (.bool (jsLooseEq lv rv)) σ₂
    ∧ visit (f + 1) (.node (.BinaryExpression "!=" left right)) env σ
        = .ok (.bool (!jsLooseEq lv rv)) σ₂
    ∧ jsLooseEq (.num 1) (.str "1") = true
    ∧ (∀ x y : Int, jsLooseEq (.num x) (.num y) = (x == y))
    ∧ (∀ s t : String, jsLooseEq (.str s) (.str t) = (s == t))
    ∧ (∀ x y : Bool, jsLooseEq (.bool x) (.bool y) = (x == y)) := by
  refine ⟨?_, ?_, rfl, ?_, ?_, ?_⟩
  · simp only [visit, h1, Res.bind, h2, applyBinary, Res.ofExcept]
  · simp only [visit, h1, Res.bind, h2, applyBinary, Res.ofExcept]
  · intro x y; rfl
  · intro s t; rfl
  · intro x y; cases x <;> cases y <;> rfl

/-- C3 witness: `binaryExpression_loose_equality` applied at the literals
`1` and `"1"`. -/
theorem binaryExpression_loose_equality_witness :
    visit 2 (.node (.BinaryExpression "==" (.NumericLiteral 1) (.StringLiteral "1"))) 0 emptyStore
        = .ok (.bool (jsLooseEq (.num 1) (.str "1"))) emptyStore
    ∧ visit 2 (.node (.BinaryExpression "!=" (.NumericLiteral 1) (.StringLiteral "1"))) 0 emptyStore
        = .ok (.bool (!jsLooseEq (.num 1) (.str "1"))) emptyStore
    ∧ jsLooseEq (.num 1) (.str "1") = true
    ∧ (∀ x y : Int, jsLooseEq (.num x) (.num y) = (x == y))
    ∧ (∀ s t : String, jsLooseEq (.str s) (.str t) = (s == t))
    ∧ (∀ x y : Bool, jsLooseEq (.bool x) (.bool y) = (x == y)) :=
  binaryExpression_loose_equality 1 (.NumericLiteral 1) (.StringLiteral "1") 0
    emptyStore emptyStore emptyStore (.num 1) (.str "1") rfl rfl

/-- C4: the claim says every declaration of a VariableStatement is evaluated
and defined.  The loop body of `visitVariableStatement` (source lines
243-254) ends in `return null`, so only the first declaration is processed:
after `Banao a = 1, b = 2;` the name `a` is bound but `b` is not. -/
theorem variableStatement_first_declaration_only :
    visit 10 (.node (.VariableStatement
          [("a", some (.NumericLiteral 1)), ("b", some (.NumericLiteral 2))])) 0 emptyStore
      = .ok .null [Frame.mk none [("a", .num 1)]]
    ∧ envGet [Frame.mk none [("a", .num 1)]] 0 "a" = some (.num 1)
    ∧ envGet [Frame.mk none [("a", .num 1)]] 0 "b" = none := ⟨rfl, rfl, rfl⟩

/-- C5: the claim says an absent test never stops a `for` loop, whether or
not init/update are present.  The code's dedicated infinite branch covers
only the case where all three clauses are absent; otherwise the generic loop
evaluates `visit(null)` = `undefined` as the test, which is falsy, so
`Banao x = 0; for (Banao i = 0; ; i += 1) { x = 1; }` terminates normally
with the body never executed (`x` still `0`, `i` still `0`). -/
theorem forStatement_absent_test_stops_loop :
    visit 30 (.node forAbsentTestProg) 0 emptyStore
      = .ok .null [Frame.mk none [("x", .num 0), ("i", .num 0)]]
    ∧ envGet [Frame.mk none [("x", .num 0), ("i", .num 0)]] 0 "x" = some (.num 0) :=
  ⟨rfl, rfl⟩

/-- C6: the claim says a non-callable callee fails with the `NotCallable`
`RuntimeError`.  The guard at source line 215 compares a boolean primitive
with `instanceof` and is therefore always false; the code proceeds past it
and crashes with a host `TypeError` at `callee.arity()` instead: calling
`a(2)` with `a = 1` produces the host error, not a `RuntimeError`. -/
theorem callExpression_not_callable_host_error :
    visit 10 (.node (.CallExpression (.Identifier "a") [.NumericLiteral 2]))
        0 [Frame.mk none [("a", .num 1)]]
      = .err (.host "callee.arity is not a function") [Frame.mk none [("a", .num 1)]] := rfl

/-- C7: after the callee and the arguments of a CallExpression have been
evaluated (`Work.invoke` is that stage of `visitCallExpression`, source
lines 224-235), a callee with finite declared arity `n` raises the
arity-mismatch `RuntimeError` exactly when the argument count differs from
`n`, and otherwise the call proceeds to `callee.call`; a callee of unbounded
arity (`Infinity`, the variadic natives) bypasses the check entirely.  A
ToyLang function's declared arity is its parameter count. -/
theorem callExpression_arity_check (f : Nat) (cv : Value) (args : List Value)
    (env : Nat) (σ : Store) :
    (∀ n : Nat, calleeArity cv = some (some n) →
        (args.length ≠ n →
          visit (f + 1) (.invoke cv args) env σ = .err (.rt (arityErrMsg n args.length)) σ)
      ∧ (args.length = n →
          visit (f + 1) (.invoke cv args) env σ = visit f (.callIt cv args) env σ))
    ∧ (calleeArity cv = some none →
        visit (f + 1) (.invoke cv args) env σ = visit f (.callIt cv args) env σ)
    ∧ (∀ (params : List String) (body : List Node) (closure : Nat),
        calleeArity (.fn params body closure) = some (some params.length)) := by
  refine ⟨?_, ?_, ?_⟩
  · intro n hn
    constructor
    · intro hne
      simp only [visit, hn, if_pos hne]
    · intro heq
      simp only [visit, hn]
      rw [if_neg (by omega)]
  · intro hn
    simp only [visit, hn]
  · intro params body closure
    rfl

/-- C7 witness: calling a one-parameter function with zero arguments fails
with the arity-mismatch error whose message names 1 expected and 0 got. -/
theorem callExpression_arity_check_witness :
    (([] : List Value).length ≠ 1)
    ∧ visit 3 (.invoke (.fn ["p"] [] 0) []) 0 emptyStore
        = .err (.rt (arityErrMsg 1 0)) emptyStore :=
  ⟨by decide,
    ((callExpression_arity_check 2 (.fn ["p"] [] 0) [] 0 emptyStore).1 1 rfl).1 (by decide)⟩

/-- C8: on evaluated operands (`applyBinary` is the `switch` of
`visitBinaryExpression`), `+` adds two numbers and concatenates two strings
and otherwise throws the `TypeMismatch` runtime error; `-`, `*`, `/`, `>`,
`<`, `>=`, `<=` throw the operands-must-be-numbers runtime error unless both
operands are numbers, in which case they produce a value; and a
BinaryExpression evaluates its operands and then applies `applyBinary`. -/
theorem binaryExpression_operand_checks :
    (∀ x y : Int, applyBinary "+" (.num x) (.num y) = .ok (.num (x + y)))
    ∧ (∀ s t : String, applyBinary "+" (.str s) (.str t) = .ok (.str (s ++ t)))
    ∧ (∀ l r : Value, ¬(isNumberV l = true ∧ isNumberV r = true) →
        ¬(isStringV l = true ∧ isStringV r = true) →
        applyBinary "+" l r = .error (.rt (plusMismatchMsg l r)))
    ∧ (∀ op : String,
        op = "-" ∨ op = "*" ∨ op = "/" ∨ op = ">" ∨ op = "<" ∨ op = ">=" ∨ op = "<=" →
        ∀ l r : Value,
          (¬(isNumberV l = true ∧ isNumberV r = true) →
            applyBinary op l r = .error (.rt "Operands must be numbers."))
        ∧ (isNumberV l = true → isNumberV r = true → ∃ v, applyBinary op l r = .ok v))
    ∧ (∀ (f : Nat) (op : String) (left right : Node) (env : Nat) (σ σ₁ σ₂ : Store)
        (lv rv : Value),
        visit f (.node left) env σ = .ok lv σ₁ →
        visit f (.node right) env σ₁ = .ok rv σ₂ →
        visit (f + 1) (.node (.BinaryExpression op left right)) env σ =
          Res.ofExcept (applyBinary op lv rv) σ₂) := by
  refine ⟨fun x y => rfl, fun s t => rfl, ?_, ?_, ?_⟩
  · intro l r h1 h2
    have hn : (isNumberV l && isNumberV r) = false := by
      cases hl : isNumberV l <;> cases hr : isNumberV r <;> simp_all
    have hs : (isStringV l && isStringV r) = false := by
      cases hl : isStringV l <;> cases hr : isStringV r <;> simp_all
    simp [applyBinary, hn, hs]
  · intro op hop l r
    constructor
    · intro h1
      have hn : (isNumberV l && isNumberV r) = false := by
        cases hl : isNumberV l <;> cases hr : isNumberV r <;> simp_all
      rcases hop with h | h | h | h | h | h | h <;>
        subst h <;> simp [applyBinary, checkNumberOperands, hn]
    · intro h1 h2
      have hck : checkNumberOperands l r = .ok () := by
        simp [checkNumberOperands, h1, h2]
      rcases hop with h | h | h | h | h | h | h <;>
        subst h <;> simp only [applyBinary, hck] <;> exact ⟨_, rfl⟩
  · intro f op left right env σ σ₁ σ₂ lv rv hl hr
    simp only [visit, hl, Res.bind, hr]

/-- C8 witness: the spec's three examples — `"a" + "b"` is `"ab"`,
`1 + "a"` raises `TypeMismatch`, `1 - "a"` raises the
operands-must-be-numbers error. -/
theorem binaryExpression_operand_checks_witness :
    applyBinary "+" (.str "a") (.str "b") = .ok (.str "ab")
    ∧ applyBinary "+" (.num 1) (.str "a") = .error (.rt (plusMismatchMsg (.num 1) (.str "a")))
    ∧ applyBinary "-" (.num 1) (.str "a") = .error (.rt "Operands must be numbers.") :=
  ⟨binaryExpression_operand_checks.2.1 "a" "b",
    binaryExpression_operand_checks.2.2.1 (.num 1) (.str "a") (by simp [isNumberV])
      (by simp [isStringV]),
    (binaryExpression_operand_checks.2.2.2.1 "-" (Or.inl rfl) (.num 1) (.str "a")).1
      (by simp [isNumberV])⟩

/-- C9: the claim says a token's `start`/`end` offsets delimit exactly its
raw text.  `getNextToken` computes `start` as `cursor - length - 1` after
the cursor has already advanced past the token, so for the one-character
source `"1"` the produced NUMBER token has `start = -1` and `end = 1`:
`end - start` is `2`, not the text length `1`, and `start` is not even a
valid zero-based offset. -/
theorem tokenizer_token_offsets :
    Tokenizer.getNextToken 5 (Tokenizer.init "1".data)
      = .tok (Token.mk .NUMBER "1" (-1) 1) (Tokenizer.mk ['1', '\n'] 1)
    ∧ (1 : Int) - (-1) = 2
    ∧ ("1".length : Int) = 1
    ∧ (2 : Int) ≠ 1
    ∧ (-1 : Int) < 0 :=
  ⟨by decide, by decide, by decide, by decide, by decide⟩

/-- C10: evaluating `x = e` (with `x` bound) stores e's value but the
expression's own value is the value `x` held before the assignment, while
the compound `x += e` stores and also evaluates to the updated value
(`visitAssignmentExpression`, source lines 144-182: `lhs` is read before the
switch, `=` returns the unmodified `lhs`, `+=` returns the reassigned one).
-/
theorem assignmentExpression_returns_old_value (f : Nat) (right : Node) (env : Nat)
    (name : String) (σ σ₁ : Store) (v v₀ : Value)
    (hr : visit f (.node right) env σ = .ok v σ₁)
    (hb : envGet σ₁ env name = some v₀) :
    ∃ σ₂, envAssign σ₁ env name v = some σ₂
      ∧ visit (f + 1) (.node (.AssignmentExpression "=" name right)) env σ = .ok v₀ σ₂
      ∧ envGet σ₂ env name = some v
      ∧ ∃ σ₃, envAssign σ₁ env name (jsAdd v₀ v) = some σ₃
          ∧ visit (f + 1) (.node (.AssignmentExpression "+=" name right)) env σ
              = .ok (jsAdd v₀ v) σ₃
          ∧ envGet σ₃ env name = some (jsAdd v₀ v) := by
  obtain ⟨σ₂, ha₂, hg₂, _⟩ := envGet_envAssign σ₁ env name v₀ v hb
  obtain ⟨σ₃, ha₃, hg₃, _⟩ := envGet_envAssign σ₁ env name v₀ (jsAdd v₀ v) hb
  refine ⟨σ₂, ha₂, ?_, hg₂, σ₃, ha₃, ?_, hg₃⟩
  · simp only [visit, hr, Res.bind, hb, ha₂]
  · simp only [visit, hr, Res.bind, hb, ha₃]

/-- C10 witness: with `x` bound to `3`, `x = 7` stores `7` and evaluates to
the old value `3`; `x += 7` stores and evaluates to `10`. -/
theorem assignmentExpression_returns_old_value_witness :
    ∃ σ₂, envAssign [Frame.mk none [("x", .num 3)]] 0 "x" (.num 7) = some σ₂
      ∧ visit 2 (.node (.AssignmentExpression "=" "x" (.NumericLiteral 7))) 0
            [Frame.mk none [("x", .num 3)]]
          = .ok (.num 3) σ₂
      ∧ envGet σ₂ 0 "x" = some (.num 7)
      ∧ ∃ σ₃, envAssign [Frame.mk none [("x", .num 3)]] 0 "x" (jsAdd (.num 3) (.num 7)) = some σ₃
          ∧ visit 2 (.node (.AssignmentExpression "+=" "x" (.NumericLiteral 7))) 0
                [Frame.mk none [("x", .num 3)]]
              = .ok (jsAdd (.num 3) (.num 7)) σ₃
          ∧ envGet σ₃ 0 "x" = some (jsAdd (.num 3) (.num 7)) :=
  assignmentExpression_returns_old_value 1 (.NumericLiteral 7) 0 "x"
    [Frame.mk none [("x", .num 3)]] [Frame.mk none [("x", .num 3)]]
    (.num 7) (.num 3) rfl rfl

end Rekhta
